import Mathlib

/-!
Verification of the observer-side job tracking of the bloggen web service.

The embedded code is the Next.js client
`src/frontend-nextjs/blog-generator-ui/src/app/blog/page.tsx` (the
Subscription/Session Manager of the spec: it keeps a local list of job
records and merges incoming socket events into them by `task_id`), and the
severity mappings of
`src/frontend-nextjs/blog-generator-ui/src/components/ErrorDisplay.tsx`.

Modelling choices:
- A JavaScript string is a Lean `String`; a JS number is embedded as `ℚ`
  where fractional progress arithmetic matters and as `Int` for the
  integer-valued `step` / `total_steps` event fields.
- `JobState.status` is embedded as a `String`: the TypeScript union type
  `'queued' | 'in_progress' | 'completed' | 'failed'` is erased at runtime
  and the `status_update` handler stores the event's raw status string via
  an unchecked cast (`data.status as JobState['status']`), so the runtime
  field can hold any string the server sends.
- `new Date().toISOString()` is an opaque timestamp passed in as a `now`
  parameter.
- Optional TS fields (`step?`, `total_steps?`, `completedAt?`) are
  `Option` fields.
-/

namespace Bloggen

/-- `LogUpdate` of page.tsx: `{task_id, log, timestamp}`. -/
structure LogUpdate where
  task_id : String
  log : String
  timestamp : String
deriving DecidableEq, Repr

/-- `ErrorInfo` of page.tsx / ErrorDisplay.tsx. -/
structure ErrorInfo where
  error_type : String
  user_message : String
  technical_details : String
  is_recoverable : Bool
  suggestions : List String
  timestamp : String
  severity : String
deriving DecidableEq, Repr

/-- `JobState` of page.tsx: one local job record of the observer. -/
structure JobState where
  id : String
  topic : String
  instructions : String
  status : String
  progress : ℚ
  currentStep : String
  logs : List LogUpdate
  blogContent : String
  error : Option ErrorInfo
  createdAt : String
  completedAt : Option String
deriving DecidableEq, Repr

/-- The four socket events merged into the job list by the `useEffect`
handlers of page.tsx (lines 146-182): `status_update`, `log_update`,
`generation_complete`, `generation_error`. -/
inductive Event where
  | statusUpdate (task_id : String) (status : String) (message : String)
      (step : Option Int) (total_steps : Option Int)
  | logUpdate (task_id : String) (log : String) (timestamp : String)
  | generationComplete (task_id : String) (status : String) (message : String)
      (content : String)
  | generationError (task_id : String) (status : String) (error_info : ErrorInfo)
deriving DecidableEq, Repr

/-- The `task_id` field every event carries. -/
def Event.taskId : Event → String
  | .statusUpdate tid _ _ _ _ => tid
  | .logUpdate tid _ _ => tid
  | .generationComplete tid _ _ _ => tid
  | .generationError tid _ _ => tid

/-- JavaScript truthiness of an optional numeric field: `undefined` and `0`
are falsy, every other number is truthy. -/
def truthyNum : Option Int → Bool
  | none => false
  | some n => n != 0

/-- The progress expression of the `status_update` handler (page.tsx line
151): `data.step && data.total_steps ? ((data.step - 1) / data.total_steps) * 100 : 0`. -/
def statusUpdateProgress (step total_steps : Option Int) : ℚ :=
  if truthyNum step && truthyNum total_steps then
    (((step.getD 0 : Int) : ℚ) - 1) / ((total_steps.getD 0 : Int) : ℚ) * 100
  else 0

/-- `updateJob` of page.tsx (lines 71-77): map over the job list, spreading
the updates into the record whose id matches. The TS partial-record spread
`{ ...job, ...updates }` is embedded as applying the concrete record update
function `f` to the matched job. -/
def updateJob (jobId : String) (f : JobState → JobState) (jobs : List JobState) :
    List JobState :=
  jobs.map fun job => if job.id = jobId then f job else job

/-- `createJob` of page.tsx (lines 80-93). -/
def createJob (jobId topic instructions now : String) : JobState :=
  { id := jobId
    topic := topic
    instructions := instructions
    status := "queued"
    progress := 0
    currentStep := "Starting..."
    logs := []
    blogContent := ""
    error := none
    createdAt := now
    completedAt := none }

/-- The socket event handlers of page.tsx (lines 146-182), as one merge
function from an event and the previous job list to the next job list.
`now` stands for `new Date().toISOString()` at handling time. Each handler
is total: an event whose `task_id` matches no record leaves the list
unchanged and raises no error. -/
def handleEvent (now : String) (e : Event) (jobs : List JobState) : List JobState :=
  match e with
  | .statusUpdate tid st msg step total_steps =>
      updateJob tid (fun job =>
        { job with
            status := st
            currentStep := msg
            progress := statusUpdateProgress step total_steps }) jobs
  | .logUpdate tid log ts =>
      jobs.map fun job =>
        if job.id = tid then { job with logs := job.logs ++ [⟨tid, log, ts⟩] } else job
  | .generationComplete tid _st _msg content =>
      updateJob tid (fun job =>
        { job with
            blogContent := content
            status := "completed"
            progress := 100
            currentStep := "Completed successfully!"
            completedAt := some now }) jobs
  | .generationError tid _st error_info =>
      updateJob tid (fun job =>
        { job with
            status := "failed"
            error := some error_info
            currentStep := "Blog generation stopped due to an error. Please see details below." }) jobs

/-- `deleteJob` of page.tsx (lines 109-114): filter the job out of the list
by id, with no status guard of its own. -/
def deleteJob (jobId : String) (jobs : List JobState) : List JobState :=
  jobs.filter fun job => job.id ≠ jobId

/-- The Delete button guard of the jobs dashboard (page.tsx lines 369-380):
the button invoking `deleteJob` is rendered only when
`job.status === 'completed' || job.status === 'failed'`. -/
def deleteButtonShown (job : JobState) : Bool :=
  job.status == "completed" || job.status == "failed"

/-- The dashboard's delete path for a rendered job record: `deleteJob` is
reachable only through the guarded Delete button, so clicking delete on
`job` removes it only when the button is shown. -/
def deleteJobFromDashboard (jobs : List JobState) (job : JobState) : List JobState :=
  if deleteButtonShown job then deleteJob job.id jobs else jobs

/-- A character removed by JavaScript `String.prototype.trim()`: ECMAScript
WhiteSpace - tab, vertical tab, form feed, space, BOM, and every
Space_Separator (Zs) code point (space, NBSP, U+1680 Ogham space mark,
U+2000-U+200A, U+202F narrow no-break space, U+205F medium mathematical
space, U+3000 ideographic space) - and LineTerminator (LF, CR, LS, PS). -/
def isJsWhitespace (c : Char) : Bool :=
  c = ' ' || c = '\t' || c = '\n' || c = '\r' || c = '\x0b' || c = '\x0c' ||
  c = '\u00a0' || c = '\u1680' || ('\u2000' ≤ c && c ≤ '\u200a') ||
  c = '\u2028' || c = '\u2029' || c = '\u202f' || c = '\u205f' ||
  c = '\u3000' || c = '\ufeff'

/-- JavaScript `s.trim()`: strip leading and trailing whitespace. -/
def jsTrim (s : String) : String :=
  ⟨((s.data.dropWhile isJsWhitespace).reverse.dropWhile isJsWhitespace).reverse⟩

/-- Outcome of one `handleGenerateBlog` call: whether the POST request to
`/generate-blog` was issued, and the job list afterwards. -/
structure SubmitOutcome where
  requested : Bool
  jobs : List JobState
deriving DecidableEq, Repr

/-- `handleGenerateBlog` of page.tsx (lines 201-247). The early return on
`!topic.trim()` rejects an empty or all-whitespace topic before any fetch.
The fetch is embedded by its observable result: `response = none` stands
for a non-ok response or network failure (the `catch` path, which leaves
the job list alone), `response = some task_id` for a successful response
carrying `task_id`, after which `createJob` is appended to the list. -/
def handleGenerateBlog (topic instructions now : String) (response : Option String)
    (jobs : List JobState) : SubmitOutcome :=
  if jsTrim topic = "" then
    { requested := false, jobs := jobs }
  else
    match response with
    | none => { requested := true, jobs := jobs }
    | some task_id =>
        { requested := true
          jobs := jobs ++ [createJob task_id (jsTrim topic) (jsTrim instructions) now] }

/-- `getSeverityStyles` of ErrorDisplay.tsx (lines 25-36): a `switch` on
the severity string with a `default` branch. -/
def getSeverityStyles (severity : String) : String :=
  if severity = "high" then "bg-red-50 border-red-200 text-red-800"
  else if severity = "medium" then "bg-orange-50 border-orange-200 text-orange-800"
  else if severity = "low" then "bg-yellow-50 border-yellow-200 text-yellow-800"
  else "bg-red-50 border-red-200 text-red-800"

/-- `getErrorIcon` of ErrorDisplay.tsx (lines 38-49): a `switch` on the
severity string with a `default` branch. -/
def getErrorIcon (severity : String) : String :=
  if severity = "high" then "🚨"
  else if severity = "medium" then "⚠️"
  else if severity = "low" then "💡"
  else "❌"

/-! ### Concrete records used by counterexamples and witnesses -/

/-- A concrete in-flight job record with progress 50, as left by a
`status_update` for step 3 of 4. -/
def midJob : JobState :=
  { id := "t1"
    topic := "Renewable Energy"
    instructions := ""
    status := "in_progress"
    progress := 50
    currentStep := "Drafting..."
    logs := []
    blogContent := ""
    error := none
    createdAt := "2026-10-11T00:00:00.000Z"
    completedAt := none }

/-- A concrete job record that has already reached the terminal status
`completed`. -/
def doneJob : JobState :=
  { id := "t1"
    topic := "Renewable Energy"
    instructions := ""
    status := "completed"
    progress := 100
    currentStep := "Completed successfully!"
    logs := []
    blogContent := "# Blog"
    error := none
    createdAt := "2026-10-11T00:00:00.000Z"
    completedAt := some "2026-10-11T00:05:00.000Z" }

/-- A concrete fully-populated `ErrorInfo`. -/
def sampleError : ErrorInfo :=
  { error_type := "llm_timeout"
    user_message := "The generation service timed out."
    technical_details := "upstream request exceeded 60s"
    is_recoverable := true
    suggestions := ["Try again later"]
    timestamp := "2026-10-11T00:03:00.000Z"
    severity := "high" }

/-! ### General lemmas about the handlers -/

/-- Every handler maps over the job list, so the list length is preserved. -/
theorem handleEvent_length (now : String) (e : Event) (jobs : List JobState) :
    (handleEvent now e jobs).length = jobs.length := by
  cases e <;> simp [handleEvent, updateJob]

/-- Mapping a function that fixes every element of a list is the identity. -/
theorem map_eq_self_of_fixes {α : Type _} (f : α → α) (l : List α)
    (h : ∀ a ∈ l, f a = a) : l.map f = l := by
  induction l with
  | nil => rfl
  | cons a l ih =>
      simp only [List.map_cons, h a (List.mem_cons_self a l)]
      exact congrArg _ (ih fun b hb => h b (List.mem_cons_of_mem a hb))

/-- `updateJob` leaves a record at any position whose id differs from the
targeted id exactly as it was. -/
theorem updateJob_getElem?_ne (jobId : String) (f : JobState → JobState)
    (jobs : List JobState) (i : Nat) (j : JobState)
    (hj : jobs[i]? = some j) (hid : j.id ≠ jobId) :
    (updateJob jobId f jobs)[i]? = some j := by
  simp [updateJob, List.getElem?_map, hj, hid]

/-- `updateJob` applies `f` to the record at any position whose id equals
the targeted id. -/
theorem updateJob_getElem?_eq (jobId : String) (f : JobState → JobState)
    (jobs : List JobState) (i : Nat) (j : JobState)
    (hj : jobs[i]? = some j) (hid : j.id = jobId) :
    (updateJob jobId f jobs)[i]? = some (f j) := by
  simp [updateJob, List.getElem?_map, hj, hid]

/-! ## Claims -/

/-- C10: the severity-to-style and severity-to-icon mappings of the error
display are total Lean functions, and any severity string outside
`{high, medium, low}` takes the `default` branch: the same red style the
`high` case uses, and the `❌` icon. -/
theorem severity_mappings_default (s : String)
    (h1 : s ≠ "high") (h2 : s ≠ "medium") (h3 : s ≠ "low") :
    getSeverityStyles s = "bg-red-50 border-red-200 text-red-800" ∧
    getSeverityStyles s = getSeverityStyles "high" ∧
    getErrorIcon s = "❌" := by
  refine ⟨?_, ?_, ?_⟩ <;>
    simp [getSeverityStyles, getErrorIcon, h1, h2, h3]

/-- Witness for C10: the out-of-range severity `"critical"` takes the
default branches. -/
theorem severity_mappings_default_witness :
    getSeverityStyles "critical" = "bg-red-50 border-red-200 text-red-800" ∧
    getSeverityStyles "critical" = getSeverityStyles "high" ∧
    getErrorIcon "critical" = "❌" :=
  severity_mappings_default "critical" (by decide) (by decide) (by decide)

/-- C2: the dashboard's delete path rejects the removal of a non-terminal
job record — the job list is returned unchanged, so the record stays in it —
and whenever the path does remove some record from the list, the clicked
record's status was `completed` or `failed`. -/
theorem delete_path_guards_nonterminal (jobs : List JobState) (target : JobState) :
    (target.status ≠ "completed" → target.status ≠ "failed" →
      deleteJobFromDashboard jobs target = jobs) ∧
    (∀ j ∈ jobs, j ∉ deleteJobFromDashboard jobs target →
      target.status = "completed" ∨ target.status = "failed") := by
  constructor
  · intro h1 h2
    simp [deleteJobFromDashboard, deleteButtonShown, h1, h2]
  · intro j hj hnot
    by_cases hc : target.status = "completed"
    · exact Or.inl hc
    · by_cases hf : target.status = "failed"
      · exact Or.inr hf
      · exact absurd (by simpa [deleteJobFromDashboard, deleteButtonShown, hc, hf] using hj)
          hnot

/-- Witness for C2: a concrete `in_progress` record survives the delete
path. -/
theorem delete_path_guards_nonterminal_witness :
    deleteJobFromDashboard [midJob] midJob = [midJob] :=
  (delete_path_guards_nonterminal [midJob] midJob).1 (by decide) (by decide)

/-- C7: an event (of any of the four kinds) whose `task_id` matches no
record in the local job list leaves the list exactly unchanged; the
handlers are total functions, so no error is raised. -/
theorem unknown_task_id_is_noop (now : String) (e : Event) (jobs : List JobState)
    (h : ∀ j ∈ jobs, j.id ≠ e.taskId) :
    handleEvent now e jobs = jobs := by
  cases e <;>
    exact map_eq_self_of_fixes _ jobs fun j hj => if_neg (h j hj)

/-- Witness for C7: a `log_update` for the unknown id `"t9"` leaves the
one-record list untouched. -/
theorem unknown_task_id_is_noop_witness :
    handleEvent "now" (Event.logUpdate "t9" "line" "ts") [midJob] = [midJob] :=
  unknown_task_id_is_noop "now" (Event.logUpdate "t9" "line" "ts") [midJob]
    (by decide)

/-- C9: merging any event touches at most the records whose id equals the
event's `task_id`: the handlers preserve the list length, and a record at
any position with a different id is exactly unchanged. -/
theorem handlers_frame_other_jobs (now : String) (e : Event) (jobs : List JobState)
    (i : Nat) (j : JobState) (hj : jobs[i]? = some j) (hid : j.id ≠ e.taskId) :
    (handleEvent now e jobs).length = jobs.length ∧
    (handleEvent now e jobs)[i]? = some j := by
  refine ⟨handleEvent_length now e jobs, ?_⟩
  cases e with
  | statusUpdate tid st msg step total_steps =>
      exact updateJob_getElem?_ne tid _ jobs i j hj hid
  | logUpdate tid log ts =>
      have hid' : j.id ≠ tid := hid
      simp [handleEvent, List.getElem?_map, hj, hid']
  | generationComplete tid st msg content =>
      exact updateJob_getElem?_ne tid _ jobs i j hj hid
  | generationError tid st info =>
      exact updateJob_getElem?_ne tid _ jobs i j hj hid

/-- Witness for C9: a `generation_complete` for `"t2"` leaves the record
with id `"t1"` at its position, bit for bit. -/
theorem handlers_frame_other_jobs_witness :
    (handleEvent "now" (Event.generationComplete "t2" "completed" "done" "body")
        [midJob]).length = 1 ∧
    (handleEvent "now" (Event.generationComplete "t2" "completed" "done" "body")
        [midJob])[0]? = some midJob :=
  handlers_frame_other_jobs "now"
    (Event.generationComplete "t2" "completed" "done" "body") [midJob] 0 midJob
    (by decide) (by decide)

/-- C6: merging a `generation_complete` event into an existing job record
(the record at position `i` whose id is the event's `task_id`) sets its
status to `completed`, its progress to 100, its content to the event's
carried content, and its `completedAt` timestamp, while keeping its
identity fields. -/
theorem generation_complete_sets_terminal_fields (now tid st msg content : String)
    (jobs : List JobState) (i : Nat) (j : JobState)
    (hj : jobs[i]? = some j) (hid : j.id = tid) :
    ∃ j', (handleEvent now (Event.generationComplete tid st msg content) jobs)[i]?
        = some j' ∧
      j'.status = "completed" ∧ j'.progress = 100 ∧ j'.blogContent = content ∧
      j'.completedAt = some now ∧ j'.id = j.id ∧ j'.topic = j.topic := by
  refine ⟨_, updateJob_getElem?_eq tid _ jobs i j hj hid, ?_⟩
  simp

/-- Witness for C6: completing the concrete in-flight job `"t1"`. -/
theorem generation_complete_sets_terminal_fields_witness :
    ∃ j', (handleEvent "now1" (Event.generationComplete "t1" "completed" "done" "# Blog")
        [midJob])[0]? = some j' ∧
      j'.status = "completed" ∧ j'.progress = 100 ∧ j'.blogContent = "# Blog" ∧
      j'.completedAt = some "now1" ∧ j'.id = midJob.id ∧ j'.topic = midJob.topic :=
  generation_complete_sets_terminal_fields "now1" "t1" "completed" "done" "# Blog"
    [midJob] 0 midJob (by decide) (by decide)

/-- With both numeric fields truthy (present and nonzero), the
`status_update` progress expression evaluates to `((step-1)/total)*100`. -/
theorem statusUpdateProgress_of_truthy (k n : Int) (hk : k ≠ 0) (hn : n ≠ 0) :
    statusUpdateProgress (some k) (some n) = ((k : ℚ) - 1) / (n : ℚ) * 100 := by
  simp [statusUpdateProgress, truthyNum, hk, hn]

/-- C1 counterexample: an event carrying the defined step `0` with
`total_steps = 4` sets progress to `0`, not to `((0-1)/4)*100 = -25`:
JavaScript truthiness on line 151 treats the defined number `0` like an
absent field. -/
theorem status_update_step_zero_counterexample :
    midJob.id = "t1" ∧
    (handleEvent "now" (Event.statusUpdate "t1" "in_progress" "msg" (some 0) (some 4))
        [midJob]).map JobState.progress = [0] ∧
    ((0 : ℚ) - 1) / 4 * 100 = -25 ∧ (0 : ℚ) ≠ -25 := by
  refine ⟨rfl, rfl, by norm_num, by norm_num⟩

/-- C1 amended: for every `status_update` event carrying defined and
nonzero step `k` and total_steps `n` that is merged into the job list, the
matched record's progress is set to exactly `((k-1)/n)*100` (and an
unmatched record keeps its progress). -/
theorem status_update_progress_formula (now tid st msg : String) (k n : Int)
    (hk : k ≠ 0) (hn : n ≠ 0) (jobs : List JobState) :
    (handleEvent now (Event.statusUpdate tid st msg (some k) (some n)) jobs).map
        JobState.progress
      = jobs.map fun j =>
          if j.id = tid then ((k : ℚ) - 1) / (n : ℚ) * 100 else j.progress := by
  induction jobs with
  | nil => rfl
  | cons a l ih =>
      by_cases h : a.id = tid <;>
        simp [handleEvent, updateJob, h, statusUpdateProgress_of_truthy k n hk hn,
          handleEvent, updateJob] at ih ⊢ <;>
        exact ih

/-- Witness for C1 (amended): merging step 2 of 4 into the record `"t1"`
sets its progress to `((2-1)/4)*100 = 25`. -/
theorem status_update_progress_formula_witness :
    (handleEvent "now" (Event.statusUpdate "t1" "in_progress" "step 2" (some 2) (some 4))
        [midJob]).map JobState.progress
      = [midJob].map fun j =>
          if j.id = "t1" then ((2 : ℚ) - 1) / (4 : ℚ) * 100 else j.progress :=
  status_update_progress_formula "now" "t1" "in_progress" "step 2" 2 4
    (by decide) (by decide) [midJob]

/-- C4 counterexample: a `status_update` without step fields addressed to
an `in_progress` record at progress 50 resets its progress to 0, which is
strictly below 50 — the merged progress is not `≥` the previous progress. -/
theorem status_update_progress_decrease_counterexample :
    midJob.status = "in_progress" ∧ midJob.progress = 50 ∧ midJob.id = "t1" ∧
    (handleEvent "now" (Event.statusUpdate "t1" "in_progress" "msg" none none)
        [midJob]).map JobState.progress = [0] ∧
    ¬ ((0 : ℚ) ≥ 50) := by
  refine ⟨rfl, rfl, rfl, rfl, by norm_num⟩

/-- The `status_update` progress expression, characterized case by case
over the optional event fields. -/
theorem statusUpdateProgress_eq_cases (step total_steps : Option Int) :
    statusUpdateProgress step total_steps
      = match step, total_steps with
        | some k, some n =>
            if k ≠ 0 ∧ n ≠ 0 then ((k : ℚ) - 1) / (n : ℚ) * 100 else 0
        | _, _ => 0 := by
  cases step with
  | none => rfl
  | some k =>
      cases total_steps with
      | none => simp [statusUpdateProgress, truthyNum]
      | some n =>
          by_cases hk : k = 0 <;> by_cases hn : n = 0 <;>
            simp [statusUpdateProgress, truthyNum, hk, hn]

/-- C4 amended: the progress a `status_update` merge writes into the
matched record is computed from the event alone — `((step-1)/total)*100`
when both fields are present and nonzero, `0` otherwise — and does not
depend on the record's previous progress, so it can be lower than the
previous value. -/
theorem status_update_progress_from_event (now tid st msg : String)
    (step total_steps : Option Int) (jobs : List JobState) :
    (handleEvent now (Event.statusUpdate tid st msg step total_steps) jobs).map
        JobState.progress
      = jobs.map fun j =>
          if j.id = tid then
            match step, total_steps with
            | some k, some n =>
                if k ≠ 0 ∧ n ≠ 0 then ((k : ℚ) - 1) / (n : ℚ) * 100 else 0
            | _, _ => 0
          else j.progress := by
  induction jobs with
  | nil => rfl
  | cons a l ih =>
      by_cases h : a.id = tid <;>
        simp [handleEvent, updateJob, h, statusUpdateProgress_eq_cases] at ih ⊢ <;>
        exact ih

/-- C5 counterexample: a late `status_update` carrying status
`"in_progress"` addressed to a record whose status is the terminal
`"completed"` overwrites it — the record leaves the terminal state. -/
theorem terminal_status_overwritten_counterexample :
    doneJob.status = "completed" ∧ doneJob.id = "t1" ∧
    (handleEvent "now" (Event.statusUpdate "t1" "in_progress" "msg" (some 2) (some 4))
        [doneJob]).map JobState.status = ["in_progress"] :=
  ⟨rfl, rfl, rfl⟩

/-- The status column of an `updateJob` merge. -/
theorem map_status_updateJob (tid : String) (f : JobState → JobState)
    (jobs : List JobState) :
    (updateJob tid f jobs).map JobState.status
      = jobs.map fun j => if j.id = tid then (f j).status else j.status := by
  simp [updateJob, List.map_map, Function.comp_def, apply_ite JobState.status]

/-- C5 amended: a `log_update` merge never changes any record's status,
but the other three handlers overwrite the matched record's status with
the event-determined value (`status_update` with the event's raw status
string, `generation_complete` with `"completed"`, `generation_error` with
`"failed"`) regardless of the record's previous status — so a terminal
record is moved out of `completed`/`failed` by a later event carrying a
different status. -/
theorem handlers_status_effect :
    (∀ now tid log ts jobs,
      (handleEvent now (Event.logUpdate tid log ts) jobs).map JobState.status
        = jobs.map JobState.status) ∧
    (∀ now tid st msg step total_steps jobs,
      (handleEvent now (Event.statusUpdate tid st msg step total_steps) jobs).map
          JobState.status
        = jobs.map fun j => if j.id = tid then st else j.status) ∧
    (∀ now tid st msg content jobs,
      (handleEvent now (Event.generationComplete tid st msg content) jobs).map
          JobState.status
        = jobs.map fun j => if j.id = tid then "completed" else j.status) ∧
    (∀ now tid st info jobs,
      (handleEvent now (Event.generationError tid st info) jobs).map JobState.status
        = jobs.map fun j => if j.id = tid then "failed" else j.status) := by
  refine ⟨?_, ?_, ?_, ?_⟩ <;> intros now tid
  · intro log ts jobs
    simp [handleEvent, List.map_map, Function.comp_def, apply_ite JobState.status]
  · intro st msg step total_steps jobs
    simp [handleEvent, map_status_updateJob]
  · intro st msg content jobs
    simp [handleEvent, map_status_updateJob]
  · intro st info jobs
    simp [handleEvent, map_status_updateJob]

/-- C3: evaluation of the `generation_error` handler at a failing input.
Merging a `generation_error` into the freshly created queued job `"t1"`
leaves the record with `status = "failed"` but `completedAt` still unset —
the handler (page.tsx lines 175-182) never writes `completedAt`, unlike
its sibling `generation_complete` handler, breaking the specified
invariant `completed_at` is set iff `status ∈ {completed, failed}`. -/
theorem generation_error_leaves_completedAt_unset :
    (handleEvent "2026-10-11T00:03:00.000Z"
        (Event.generationError "t1" "failed" sampleError)
        [createJob "t1" "Topic" "" "t0"]).map (fun j => (j.status, j.completedAt))
      = [("failed", none)] ∧
    (handleEvent "2026-10-11T00:03:00.000Z"
        (Event.generationError "t1" "failed" sampleError)
        [createJob "t1" "Topic" "" "t0"]).map JobState.error
      = [some sampleError] :=
  ⟨rfl, rfl⟩

/-- A list all of whose elements satisfy `p` is emptied by `dropWhile p`. -/
theorem dropWhile_eq_nil_of_all {α : Type _} (p : α → Bool) (l : List α)
    (h : ∀ a ∈ l, p a) : l.dropWhile p = [] := by
  induction l with
  | nil => rfl
  | cons a l ih =>
      rw [List.dropWhile_cons, if_pos (h a (List.mem_cons_self a l))]
      exact ih fun b hb => h b (List.mem_cons_of_mem a hb)

/-- Trimming a string made of whitespace only yields the empty string. -/
theorem jsTrim_eq_empty_of_all_whitespace (s : String)
    (h : s.data.all isJsWhitespace) :
    jsTrim s = "" := by
  have h' : ∀ c ∈ s.data, isJsWhitespace c := by
    simpa [List.all_eq_true] using h
  simp [jsTrim, dropWhile_eq_nil_of_all _ _ h']

/-- C8: a submission whose topic is empty or whitespace-only is rejected
before any request is issued (`requested = false`) with the job list
unchanged; and in every case the job list either stays unchanged or a
single `createJob` record is appended, the latter only when the response
was successful and carried a `task_id`. -/
theorem submit_rejects_blank_topic (topic instructions now : String)
    (response : Option String) (jobs : List JobState) :
    (topic.data.all isJsWhitespace →
      handleGenerateBlog topic instructions now response jobs
        = { requested := false, jobs := jobs }) ∧
    ((handleGenerateBlog topic instructions now response jobs).jobs = jobs ∨
      ∃ task_id, response = some task_id ∧
        (handleGenerateBlog topic instructions now response jobs).requested = true ∧
        (handleGenerateBlog topic instructions now response jobs).jobs
          = jobs ++ [createJob task_id (jsTrim topic) (jsTrim instructions) now]) := by
  constructor
  · intro h
    simp [handleGenerateBlog, jsTrim_eq_empty_of_all_whitespace topic h]
  · by_cases h : jsTrim topic = ""
    · left
      simp [handleGenerateBlog, h]
    · cases response with
      | none =>
          left
          simp [handleGenerateBlog, h]
      | some task_id =>
          right
          exact ⟨task_id, rfl, by simp [handleGenerateBlog, h],
            by simp [handleGenerateBlog, h]⟩

/-- Witness for C8: the whitespace-only topic made of a space, a tab and
an ideographic space (U+3000) is rejected with no request issued and an
unchanged (empty) job list, even though a successful response was
available. -/
theorem submit_rejects_blank_topic_witness :
    handleGenerateBlog " \t\u3000" "style" "t0" (some "T1") []
      = { requested := false, jobs := [] } :=
  (submit_rejects_blank_topic " \t\u3000" "style" "t0" (some "T1") []).1 (by decide)

end Bloggen
